import Mathlib

/-!
Shallow embedding of the wasm car simulator kernel (`src/lib.rs`).

The Rust code works on `i32`. We model `i32` values as `Int` together with
explicit two's-complement wrapping `wrap32` at every arithmetic operation that
can overflow (release-mode Rust wraps on add/mul overflow).  Rust's division
operator panics when the divisor is zero and when dividing `i32::MIN` by `-1`
(this is checked in every build mode), so `Camera.project` returns an
`Option Int`, `none` standing for the panic.  Rust's `/` on integers truncates
toward zero, which is `Int.tdiv`.
-/

def i32Max : Int := 2147483647

def i32Min : Int := -2147483648

/-- Two's-complement wrapping of an integer into the `i32` range. -/
def wrap32 (x : Int) : Int := (x + 2147483648) % 4294967296 - 2147483648

/-- An integer is representable as an `i32`. -/
def inI32 (x : Int) : Prop := i32Min ≤ x ∧ x ≤ i32Max

instance (x : Int) : Decidable (inI32 x) := by unfold inI32; infer_instance

/-- Rust `Ord::clamp` on integers (`v.clamp(lo, hi)` with `lo <= hi`). -/
def rustClamp (v lo hi : Int) : Int := if v < lo then lo else if v > hi then hi else v

/-- The `State` struct of `src/lib.rs`. -/
structure State where
  acceleration : Int
  speed : Int
  position : Int
  position_goal_start : Int
  position_goal_end : Int
  won : Bool
  lost : Bool
deriving DecidableEq, Repr

/-- The `Camera` struct of `src/lib.rs`. -/
structure Camera where
  screen_size : Int
  world_size : Int
  world_position : Int
deriving DecidableEq, Repr

/-- `Default::default()` for `State`. -/
def State.defaultState : State :=
  { acceleration := 0, speed := 0, position := 0, position_goal_start := 0
    position_goal_end := 0, lost := false, won := false }

/-- `State::new()`: goal window `[9000, 10000]`, starting position `500`. -/
def State.new : State :=
  { State.defaultState with
    position_goal_start := 9000, position_goal_end := 10000, position := 500 }

/-- `Camera::new(screen_size, world_size)`: world position starts at `0`. -/
def Camera.new (screen_size world_size : Int) : Camera :=
  { screen_size := screen_size, world_size := world_size, world_position := 0 }

/-- The `update` function of `src/lib.rs` (release-mode `i32` semantics:
additions wrap on overflow). -/
def update (current_state : State) (throttle : Int) : State :=
  { acceleration := throttle
    speed := rustClamp (wrap32 (current_state.speed + current_state.acceleration)) 0 i32Max
    position := wrap32 (current_state.position + current_state.speed)
    lost := decide (current_state.position > current_state.position_goal_end)
    won := (current_state.speed == 0)
      && decide (current_state.position > current_state.position_goal_start)
      && decide (current_state.position < current_state.position_goal_end)
    position_goal_start := current_state.position_goal_start
    position_goal_end := current_state.position_goal_end }

/-- `Camera::project` of `src/lib.rs`: `i32` arithmetic with wrapping
multiplication/addition; `none` models the Rust panic on division by zero and
on the overflowing division `i32::MIN / -1`. -/
def Camera.project (c : Camera) (world_position : Int) : Option Int :=
  if c.world_size = 0 then none
  else if wrap32 (c.screen_size *
      wrap32 (wrap32 (c.world_position + Int.tdiv c.world_size 2) - world_position))
        = i32Min ∧ c.world_size = -1 then none
  else some (Int.tdiv (wrap32 (c.screen_size *
      wrap32 (wrap32 (c.world_position + Int.tdiv c.world_size 2) - world_position)))
    c.world_size)

/-- The per-tick transition exactly as the specification words it: the new
acceleration is the throttle, the new speed is the old speed plus the old
acceleration floored at zero, the new position is the old position plus the
old speed, and the flags and goal window are computed from pre-tick values. -/
def updateSpec (current : State) (throttle : Int) : State :=
  { acceleration := throttle
    speed := max (current.speed + current.acceleration) 0
    position := current.position + current.speed
    lost := decide (current.position > current.position_goal_end)
    won := (current.speed == 0)
      && decide (current.position > current.position_goal_start)
      && decide (current.position < current.position_goal_end)
    position_goal_start := current.position_goal_start
    position_goal_end := current.position_goal_end }

/-- The camera projection exactly as the specification words it:
`screen_size * (world_position_of_camera + world_size/2 - world_position) / world_size`
with truncating (toward-zero) integer division throughout. -/
def projectSpec (c : Camera) (world_position : Int) : Int :=
  Int.tdiv (c.screen_size * (c.world_position + Int.tdiv c.world_size 2 - world_position))
    c.world_size

theorem wrap32_eq_self {x : Int} (h : inI32 x) : wrap32 x = x := by
  obtain ⟨h1, h2⟩ := h
  unfold i32Min at h1
  unfold i32Max at h2
  unfold wrap32
  omega

theorem wrap32_sub_congr (a b : Int) : wrap32 (wrap32 a - b) = wrap32 (a - b) := by
  unfold wrap32
  omega

theorem wrap32_wrap32_sub_self (a : Int) : wrap32 (wrap32 a - a) = 0 := by
  unfold wrap32
  omega

theorem tdiv_mul_two_mul_pos (s m : Int) (hm : 0 < m) :
    Int.tdiv (s * m) (2 * m) = Int.tdiv s 2 := by
  rcases Int.natAbs_eq s with hs | hs
  · rw [hs]
    rw [Int.tdiv_eq_ediv (by positivity) (by omega),
      Int.tdiv_eq_ediv (Int.natCast_nonneg _) (by omega)]
    exact Int.mul_ediv_mul_of_pos_left _ _ hm
  · rw [hs, Int.neg_mul, Int.neg_tdiv, Int.neg_tdiv]
    rw [Int.tdiv_eq_ediv (by positivity) (by omega),
      Int.tdiv_eq_ediv (Int.natCast_nonneg _) (by omega)]
    rw [Int.mul_ediv_mul_of_pos_left _ _ hm]

theorem tdiv_mul_two_mul (s m : Int) (hm : m ≠ 0) :
    Int.tdiv (s * m) (2 * m) = Int.tdiv s 2 := by
  rcases lt_or_gt_of_ne hm with hneg | hpos
  · have h := tdiv_mul_two_mul_pos s (-m) (by omega)
    rw [show s * m = -(s * -m) by ring, show 2 * m = -(2 * -m) by ring,
      Int.neg_tdiv_neg]
    exact h
  · exact tdiv_mul_two_mul_pos s m hpos

/-- C1: For every input state and every integer throttle, `update` returns the
state computed exactly from the pre-tick state and the throttle by the
specification's seven field formulas, under the precondition that the two
additions `speed + acceleration` and `position + speed` stay inside the `i32`
range. -/
theorem update_matches_spec_formulas (s : State) (t : Int)
    (h1 : inI32 (s.speed + s.acceleration)) (h2 : inI32 (s.position + s.speed)) :
    update s t = updateSpec s t := by
  obtain ⟨l1, u1⟩ := h1
  obtain ⟨l2, u2⟩ := h2
  unfold i32Min at l1 l2
  unfold i32Max at u1 u2
  unfold update updateSpec
  simp only [State.mk.injEq, and_true, true_and, eq_self_iff_true]
  refine ⟨?_, ?_⟩
  · unfold rustClamp wrap32 i32Max
    split
    · omega
    · split <;> omega
  · unfold wrap32
    omega

/-- Witness for C1: the theorem applied at a concrete state and throttle. -/
theorem update_matches_spec_formulas_witness :
    inI32 ((3 : Int) + -5) ∧ inI32 ((10 : Int) + 3) ∧
    update (State.mk (-5) 3 10 1 20 false false) 7
      = updateSpec (State.mk (-5) 3 10 1 20 false false) 7 :=
  ⟨by decide, by decide,
    update_matches_spec_formulas (State.mk (-5) 3 10 1 20 false false) 7
      (by decide) (by decide)⟩

/-- C2: For every input state and every throttle, the `won` flag returned by
`update` is true iff the pre-tick state has `speed = 0` and its position lies
strictly between the goal bounds; the result never depends on the input
state's own `won` flag. -/
theorem update_won_iff_pre_tick (s : State) (t : Int) (b : Bool) :
    ((update s t).won = true ↔
      (s.speed = 0 ∧ s.position_goal_start < s.position ∧ s.position < s.position_goal_end))
    ∧ (update { s with won := b } t).won = (update s t).won := by
  constructor
  · show ((s.speed == 0) && _ && _) = true ↔ _
    simp [and_assoc]
  · rfl

/-- C3: For every input state (including states whose acceleration is negative
with arbitrary magnitude) and every throttle, the speed field of the state
returned by `update` is greater than or equal to zero. -/
theorem update_speed_nonneg (s : State) (t : Int) : 0 ≤ (update s t).speed := by
  show 0 ≤ rustClamp (wrap32 (s.speed + s.acceleration)) 0 i32Max
  unfold rustClamp i32Max
  split <;> [omega; split <;> omega]

/-- C4: For every state and any two throttles, `update` returns the same speed
and the same position: the throttle supplied this tick has no effect on speed
or position this tick. -/
theorem update_speed_position_throttle_independent (s : State) (t1 t2 : Int) :
    (update s t1).speed = (update s t2).speed ∧
    (update s t1).position = (update s t2).position :=
  ⟨rfl, rfl⟩

/-- C8: For every input state and every throttle, `update` returns a state
whose `position_goal_start` and `position_goal_end` equal the input's; the
goal window is never changed. -/
theorem update_preserves_goal_window (s : State) (t : Int) :
    (update s t).position_goal_start = s.position_goal_start ∧
    (update s t).position_goal_end = s.position_goal_end :=
  ⟨rfl, rfl⟩

/-- C7: For every input state and every throttle, the `lost` flag returned by
`update` is true iff the pre-tick position is strictly greater than
`position_goal_end`; it is evaluated on the pre-tick position and never
depends on the input state's own `lost` flag. -/
theorem update_lost_iff_pre_tick (s : State) (t : Int) (b : Bool) :
    ((update s t).lost = true ↔ s.position > s.position_goal_end)
    ∧ (update { s with lost := b } t).lost = (update s t).lost := by
  constructor
  · show (decide (s.position > s.position_goal_end)) = true ↔ _
    simp
  · rfl

/-- C10: For every input state and every throttle, the state returned by
`update` never has `won` and `lost` both true: the two flags are mutually
exclusive in every output state. -/
theorem update_won_lost_exclusive (s : State) (t : Int) :
    ((update s t).won && (update s t).lost) = false := by
  show (((s.speed == 0) && _ && _) && decide (s.position > s.position_goal_end)) = false
  by_cases h : s.position < s.position_goal_end <;>
    by_cases h' : s.position_goal_end < s.position <;> simp [h, h'] <;> omega

/-- Counterexample to C5 as stated: with `screen_size = world_size = 2^20`
(all fields valid `i32` values, `world_size ≠ 0`), projecting world coordinate
`520192` makes the numerator `2^20 * 4096 = 2^32` overflow `i32`; the code
returns `0` while the specification formula gives `4096`. -/
theorem project_spec_overflow_cex :
    ((Camera.mk 1048576 1048576 0).world_size == 0) = false ∧
    Camera.project (Camera.mk 1048576 1048576 0) 520192 = some 0 ∧
    projectSpec (Camera.mk 1048576 1048576 0) 520192 = 4096 ∧
    decide (Camera.project (Camera.mk 1048576 1048576 0) 520192
      = some (projectSpec (Camera.mk 1048576 1048576 0) 520192)) = false := by
  decide

/-- C5 (amended): for every camera with `world_size ≠ 0` and every world
coordinate, provided no intermediate `i32` operation overflows (the centre
offset, the difference, the product, and the final division), `project`
returns exactly the specification formula
`screen_size * (world_position + world_size/2 - world_position) / world_size`
with truncating division. -/
theorem project_eq_spec_of_no_overflow (c : Camera) (w : Int)
    (hws : c.world_size ≠ 0)
    (h1 : inI32 (c.world_position + Int.tdiv c.world_size 2))
    (h2 : inI32 (c.world_position + Int.tdiv c.world_size 2 - w))
    (h3 : inI32 (c.screen_size * (c.world_position + Int.tdiv c.world_size 2 - w)))
    (h4 : ¬(c.world_size = -1 ∧
      c.screen_size * (c.world_position + Int.tdiv c.world_size 2 - w) = i32Min)) :
    Camera.project c w = some (projectSpec c w) := by
  unfold Camera.project projectSpec
  rw [wrap32_eq_self h1, wrap32_eq_self h2, wrap32_eq_self h3]
  rw [if_neg hws, if_neg (fun h => h4 ⟨h.2, h.1⟩)]

/-- Witness for C5: the spec's own example, `screen_size = 1000`,
`world_size = 1000`, `world_position = 500`, world coordinate `100`, where the
amended theorem applies and the result is `900`. -/
theorem project_eq_spec_of_no_overflow_witness :
    Camera.project (Camera.mk 1000 1000 500) 100
      = some (projectSpec (Camera.mk 1000 1000 500) 100) ∧
    projectSpec (Camera.mk 1000 1000 500) 100 = 900 :=
  ⟨project_eq_spec_of_no_overflow (Camera.mk 1000 1000 500) 100
      (by decide) (by decide) (by decide) (by decide) (by decide),
    by decide⟩

/-- Counterexample to C6 as stated: with the odd `world_size = 1001`
(`world_size ≠ 0`, no overflow anywhere), projecting the camera's own
position gives `1000 * 500 / 1001 = 499`, not `screen_size / 2 = 500`. -/
theorem project_center_odd_world_size_cex :
    ((Camera.mk 1000 1001 0).world_size == 0) = false ∧
    Camera.project (Camera.mk 1000 1001 0) 0 = some 499 ∧
    Int.tdiv (Camera.mk 1000 1001 0).screen_size 2 = 500 ∧
    decide (Camera.project (Camera.mk 1000 1001 0) 0
      = some (Int.tdiv (Camera.mk 1000 1001 0).screen_size 2)) = false := by
  decide

/-- C6 (amended): for every camera whose `world_size` is a nonzero even `i32`
value such that `screen_size * (world_size/2)` does not overflow `i32`,
`project` applied to the camera's own `world_position` returns exactly
`screen_size / 2` (truncating), and `project` applied to
`world_position + world_size/2` returns exactly `0`. -/
theorem project_center_of_even_world_size (c : Camera)
    (hws : c.world_size ≠ 0)
    (heven : c.world_size % 2 = 0)
    (hr : inI32 c.world_size)
    (hp : inI32 (c.screen_size * Int.tdiv c.world_size 2)) :
    Camera.project c c.world_position = some (Int.tdiv c.screen_size 2) ∧
    Camera.project c (c.world_position + Int.tdiv c.world_size 2) = some 0 := by
  obtain ⟨m, hm⟩ : (2 : Int) ∣ c.world_size := Int.dvd_of_emod_eq_zero heven
  have hhalf : Int.tdiv c.world_size 2 = m := by
    rw [hm]
    exact Int.mul_tdiv_cancel_left m (by norm_num)
  have hm0 : m ≠ 0 := fun h => hws (by omega)
  constructor
  · have hmbound : inI32 m := by
      obtain ⟨a, b⟩ := hr
      rw [hm] at a b
      unfold inI32 i32Min i32Max at *
      constructor <;> omega
    have hpm : inI32 (c.screen_size * m) := by rwa [hhalf] at hp
    unfold Camera.project
    rw [hhalf, wrap32_sub_congr,
      show c.world_position + m - c.world_position = m by ring,
      wrap32_eq_self hmbound, wrap32_eq_self hpm,
      if_neg hws, if_neg (fun h => by omega)]
    rw [hm, tdiv_mul_two_mul c.screen_size m hm0]
  · unfold Camera.project
    rw [wrap32_wrap32_sub_self, mul_zero,
      show wrap32 0 = 0 by decide,
      if_neg hws, if_neg (fun h => by exact absurd h.1 (by decide)),
      Int.zero_tdiv]

/-- Witness for C6: the spec's own example, `screen_size = 1000`,
`world_size = 10000`, `world_position = 1000`: the camera's own position
projects to `500` and the position half a window ahead projects to `0`. -/
theorem project_center_of_even_world_size_witness :
    Camera.project (Camera.mk 1000 10000 1000) 1000 = some 500 ∧
    Camera.project (Camera.mk 1000 10000 1000)
      (1000 + Int.tdiv (10000 : Int) 2) = some 0 :=
  project_center_of_even_world_size (Camera.mk 1000 10000 1000)
    (by decide) (by decide) (by decide) (by decide)

/-- Counterexample to C9 as stated: the camera
`{screen_size = -2^31, world_size = -1, world_position = 1}` has
`world_size ≠ 0`, yet projecting world coordinate `0` divides `i32::MIN` by
`-1`, which panics (overflow of the division) instead of returning an
integer. -/
theorem project_min_div_neg_one_cex :
    ((Camera.mk (-2147483648) (-1) 1).world_size == 0) = false ∧
    Camera.project (Camera.mk (-2147483648) (-1) 1) 0 = none := by
  decide

/-- C9 (amended): `project` fails (Rust panic, modelled as `none`) exactly
when `world_size = 0` (division by zero) or when `world_size = -1` and the
wrapped numerator is `i32::MIN` (overflowing division); for every other input
it is total and returns a well-defined integer. -/
theorem project_none_iff (c : Camera) (w : Int) :
    Camera.project c w = none ↔
      c.world_size = 0 ∨
        (c.world_size = -1 ∧
          wrap32 (c.screen_size *
            wrap32 (wrap32 (c.world_position + Int.tdiv c.world_size 2) - w)) = i32Min) := by
  unfold Camera.project
  split
  · next h0 => exact iff_of_true rfl (Or.inl h0)
  · split
    · next h h2 => exact iff_of_true rfl (Or.inr ⟨h2.2, h2.1⟩)
    · next h h2 =>
        refine iff_of_false (by simp) ?_
        rintro (h0 | ⟨hw, hn⟩)
        · exact h h0
        · exact h2 ⟨hn, hw⟩
